import Mathlib

/-!
Verification of the GPS walking/navigation subsystem of `src/src/App.tsx`
(shade-route-app). The React component keeps its navigation state in a flat
set of `useState` variables; we embed that state as the structure `AppState`
and each handler (`startTracking`'s `watchPosition` callbacks,
`stopTracking`, `startWalkingSession`, `endWalkingSession`,
`startNavigation`, `stopNavigation`) as a function on `AppState`.

Numbers: JS `number` is modelled by `ℝ`; timestamps from `Date.now()` and
fix timestamps are integer milliseconds, modelled by `ℤ`. Within one
callback, reads of a state variable see the value captured when the callback
fired and the last `setX` write wins, which matches the functional-update
semantics transcribed here.
-/

namespace ShadeRouteApp

noncomputable section

open Real

/-- Source `GPSPosition` interface (latitude, longitude, accuracy,
timestamp). -/
structure GPSPosition where
  latitude : ℝ
  longitude : ℝ
  accuracy : ℝ
  timestamp : ℤ

/-- Source `WalkingSession` interface. `endTime`/`endLocation` are
optional fields, absent while the session is open. -/
structure WalkingSession where
  id : String
  startTime : ℤ
  endTime : Option ℤ
  startLocation : GPSPosition
  endLocation : Option GPSPosition
  path : List GPSPosition
  totalDistance : ℝ
  averageSpeed : ℝ
  duration : ℤ

/-- Source `WalkingStats` interface. -/
structure WalkingStats where
  totalSessions : ℕ
  totalDistance : ℝ
  totalTime : ℤ
  averageSpeed : ℝ
  averageAccuracy : ℝ

/-- JS `Math.atan2(y, x)` on non-NaN inputs. -/
def atan2 (y x : ℝ) : ℝ :=
  if 0 < x then arctan (y / x)
  else if x < 0 then
    (if 0 ≤ y then arctan (y / x) + π else arctan (y / x) - π)
  else
    (if 0 < y then π / 2 else if y < 0 then -(π / 2) else 0)

/-- Function `calculateDistance` (App.tsx lines 253-266): haversine great-circle
distance in meters, Earth radius `6371e3`. -/
def calculateDistance (lat1 lon1 lat2 lon2 : ℝ) : ℝ :=
  let R : ℝ := 6371000
  let phi1 := lat1 * π / 180
  let phi2 := lat2 * π / 180
  let dphi := (lat2 - lat1) * π / 180
  let dlam := (lon2 - lon1) * π / 180
  let a := Real.sin (dphi / 2) * Real.sin (dphi / 2) +
      Real.cos phi1 * Real.cos phi2 * Real.sin (dlam / 2) * Real.sin (dlam / 2)
  let c := 2 * atan2 (Real.sqrt a) (Real.sqrt (1 - a))
  R * c

/-- JS `Math.round`: round half towards positive infinity. -/
def jsRound (x : ℝ) : ℤ := ⌊x + 1 / 2⌋

/-- The 8 compass labels of `bearingToDirection`
(北 = N, 北東 = NE, 東 = E, 南東 = SE, 南 = S, 南西 = SW, 西 = W, 北西 = NW). -/
def directions : List String := ["北", "北東", "東", "南東", "南", "南西", "西", "北西"]

/-- Function `bearingToDirection` (App.tsx lines 282-286):
`directions[Math.round(bearing / 45) % 8]`. JS `%` is the truncated
remainder (`Int.tmod`); for bearings in `[0, 360)` the index is in
`[0, 8)`, so the array access is in range. -/
def bearingToDirection (bearing : ℝ) : String :=
  directions.getD ((jsRound (bearing / 45)).tmod 8).toNat ""

/-- Function `calculateSpeed` (App.tsx lines 290-295): km/h from meters and
milliseconds; `0` when `timeMs == 0`. -/
def calculateSpeed (distance : ℝ) (timeMs : ℤ) : ℝ :=
  if timeMs = 0 then 0
  else (distance / 1000) / ((timeMs : ℝ) / (1000 * 60 * 60))

/-- Function `calculateTotalPathDistance` (App.tsx lines 298-308): `0` when the path
has fewer than 2 points, else the sum of consecutive `calculateDistance`
values along the path. -/
def calculateTotalPathDistance : List GPSPosition → ℝ
  | [] => 0
  | [_] => 0
  | p :: q :: rest =>
      calculateDistance p.latitude p.longitude q.latitude q.longitude +
        calculateTotalPathDistance (q :: rest)

/-- Function `predictArrivalTime` (App.tsx lines 311-315):
`new Date(Date.now() + (distance/1000/speed)*60*60*1000)`, with the
`Date.now()` reading lifted into the parameter `now` (milliseconds). There
is no guard on `speed`. -/
def predictArrivalTime (now : ℤ) (distance speed : ℝ) : ℝ :=
  (now : ℝ) + distance / 1000 / speed * (60 * 60 * 1000)

/-- Function `calculateWalkingStats` (App.tsx lines 318-351): early all-zero return
on an empty list; otherwise `reduce` sums for distance/time/speed and a
nested `forEach` accumulating total accuracy and point count. -/
def calculateWalkingStats (sessions : List WalkingSession) : WalkingStats :=
  if sessions.length = 0 then
    { totalSessions := 0, totalDistance := 0, totalTime := 0
      averageSpeed := 0, averageAccuracy := 0 }
  else
    let totalDistance := sessions.foldl (fun sum s => sum + s.totalDistance) 0
    let totalTime := sessions.foldl (fun sum s => sum + s.duration) 0
    let averageSpeed :=
      sessions.foldl (fun sum s => sum + s.averageSpeed) 0 / (sessions.length : ℝ)
    let acc := sessions.foldl
      (fun (t : ℝ × ℕ) s =>
        s.path.foldl (fun (u : ℝ × ℕ) point => (u.1 + point.accuracy, u.2 + 1)) t)
      (0, 0)
    let averageAccuracy := if 0 < acc.2 then acc.1 / (acc.2 : ℝ) else 0
    { totalSessions := sessions.length, totalDistance := totalDistance
      totalTime := totalTime, averageSpeed := averageSpeed
      averageAccuracy := averageAccuracy }

/-- The closed error taxonomy of the browser geolocation API
(`error.code` in the source's error callbacks). -/
inductive GeoError where
  | permissionDenied
  | positionUnavailable
  | timeout

/-- The GPS-related `useState` variables of the `App` component
(App.tsx lines 217-234), plus `endPoint` (line 201), which the navigation
code reads as the destination. -/
structure AppState where
  currentLocation : Option GPSPosition
  gpsEnabled : Bool
  gpsError : Option String
  isTracking : Bool
  watchId : Option ℕ
  navigationMode : Bool
  distanceToDestination : Option ℝ
  locationHistory : List GPSPosition
  currentSession : Option WalkingSession
  walkingSessions : List WalkingSession
  walkingStats : Option WalkingStats
  estimatedArrivalTime : Option ℝ
  averageWalkingSpeed : ℝ
  endPoint : Option (ℝ × ℝ)

/-- The `useState` initial values: no fix, no stream, no session, no
destination, and the 4.5 km/h default walking speed (line 234). -/
def initialState : AppState where
  currentLocation := none
  gpsEnabled := false
  gpsError := none
  isTracking := false
  watchId := none
  navigationMode := false
  distanceToDestination := none
  locationHistory := []
  currentSession := none
  walkingSessions := []
  walkingStats := none
  estimatedArrivalTime := none
  averageWalkingSpeed := 4.5
  endPoint := none

/-- The session update built inside the `watchPosition` callback
(App.tsx lines 476-483): append the fix to `path`, recompute
`totalDistance` over the grown path, `duration = Date.now() - startTime`,
and `averageSpeed` from the two. -/
def appendFixToSession (now : ℤ) (s : WalkingSession) (pos : GPSPosition) :
    WalkingSession :=
  let path := s.path ++ [pos]
  let totalDistance := calculateTotalPathDistance path
  let duration := now - s.startTime
  { s with path := path, totalDistance := totalDistance, duration := duration
           averageSpeed := calculateSpeed totalDistance duration }

/-- The completed-session record built both by the arrival branch of the
`watchPosition` callback (App.tsx lines 508-521) and by
`endWalkingSession` (lines 589-602): `endTime = Date.now()`, the closing
fix appended to `path`, and distance/speed/duration recomputed. -/
def completeSessionWith (now : ℤ) (s : WalkingSession) (endLocation : GPSPosition) :
    WalkingSession :=
  let duration := now - s.startTime
  let totalDistance := calculateTotalPathDistance (s.path ++ [endLocation])
  { s with endTime := some now, endLocation := some endLocation
           path := s.path ++ [endLocation], totalDistance := totalDistance
           averageSpeed := calculateSpeed totalDistance duration
           duration := duration }

/-- The success callback registered by `startTracking`'s `watchPosition`
(App.tsx lines 463-539), as a function of the state when the fix is
delivered. It returns the new state and whether the arrival notification
(browser notification or alert, lines 527-535) was emitted. Reads refer to
the state at callback entry; of the two `setCurrentSession` writes in the
arrival path the later (`null`) wins. -/
def handleWatchPosition (now : ℤ) (pos : GPSPosition) (st : AppState) :
    AppState × Bool :=
  let history := (st.locationHistory.drop (st.locationHistory.length - 99)) ++ [pos]
  let session :=
    match st.currentSession with
    | some cs => some (appendFixToSession now cs pos)
    | none => none
  match st.endPoint, st.navigationMode with
  | some ep, true =>
    let distance := calculateDistance pos.latitude pos.longitude ep.1 ep.2
    let eta :=
      match st.currentSession with
      | some cs =>
          if 0 < cs.averageSpeed then some (predictArrivalTime now distance cs.averageSpeed)
          else st.estimatedArrivalTime
      | none => st.estimatedArrivalTime
    if distance ≤ 50 then
      match st.currentSession with
      | some cs =>
          ({ st with currentLocation := some pos, locationHistory := history
                     distanceToDestination := some distance
                     estimatedArrivalTime := eta
                     walkingSessions := st.walkingSessions ++ [completeSessionWith now cs pos]
                     currentSession := none }, true)
      | none =>
          ({ st with currentLocation := some pos, locationHistory := history
                     currentSession := session
                     distanceToDestination := some distance
                     estimatedArrivalTime := eta }, true)
    else
      ({ st with currentLocation := some pos, locationHistory := history
                 currentSession := session
                 distanceToDestination := some distance
                 estimatedArrivalTime := eta }, false)
  | _, _ =>
    ({ st with currentLocation := some pos, locationHistory := history
               currentSession := session }, false)

/-- The error callback registered by `startTracking`'s `watchPosition`
(App.tsx lines 541-544): it logs the error and sets a fixed `gpsError`
message, ignoring the error code — no stream teardown, no mode change. -/
def handleWatchError (_e : GeoError) (st : AppState) : AppState :=
  { st with gpsError := some "位置追跡中にエラーが発生しました" }

/-- Handler `startTracking` (App.tsx lines 456-556) minus the callbacks it
registers (modelled separately above): on an unsupported platform it only
sets `gpsError`; otherwise the fresh `watchPosition` id (supplied here as
`newWatchId`) is stored and tracking is flagged on. -/
def startTracking (supported : Bool) (newWatchId : ℕ) (st : AppState) : AppState :=
  if supported then
    { st with watchId := some newWatchId, isTracking := true, gpsEnabled := true }
  else
    { st with gpsError := some "お使いのブラウザではGPS機能がサポートされていません" }

/-- Handler `stopTracking` (App.tsx lines 559-566): clear the watch when one is
set, null the handle, flag tracking off. -/
def stopTracking (st : AppState) : AppState :=
  { st with watchId := none, isTracking := false }

/-- The session object literal built by `startWalkingSession`
(App.tsx lines 571-580): id `session_${Date.now()}`, path seeded with the
start fix, zeroed distance/speed/duration; `startWalkingSession`
(App.tsx lines 570-583) stores it as the current session. -/
def freshSession (now : ℤ) (startLocation : GPSPosition) : WalkingSession :=
  { id := "session_" ++ toString now
    startTime := now
    endTime := none
    startLocation := startLocation
    endLocation := none
    path := [startLocation]
    totalDistance := 0
    averageSpeed := 0
    duration := 0 }

def startWalkingSession (now : ℤ) (startLocation : GPSPosition) (st : AppState) :
    AppState :=
  { st with currentSession := some (freshSession now startLocation) }

/-- Handler `endWalkingSession` (App.tsx lines 586-618): no-op when no session is
open; otherwise complete the session, append it to the history, recompute
the lifetime stats, and replace `averageWalkingSpeed` by the new lifetime
average when that average is positive. -/
def endWalkingSession (now : ℤ) (endLocation : GPSPosition) (st : AppState) :
    AppState :=
  match st.currentSession with
  | none => st
  | some cs =>
    let completed := completeSessionWith now cs endLocation
    let updatedSessions := st.walkingSessions ++ [completed]
    let newStats := calculateWalkingStats updatedSessions
    { st with walkingSessions := updatedSessions
              currentSession := none
              walkingStats := some newStats
              averageWalkingSpeed :=
                if 0 < newStats.averageSpeed then newStats.averageSpeed
                else st.averageWalkingSpeed }

/-- Handler `startNavigation` (App.tsx lines 621-647). With no destination it
alerts (the returned message) and leaves the state unchanged. Otherwise it
turns navigation mode on, starts tracking, and — only when a current fix
exists — opens a walking session from it and, when a nonzero (JS-truthy)
`distanceToDestination` is present, seeds the ETA from
`averageWalkingSpeed`. -/
def startNavigation (now : ℤ) (supported : Bool) (newWatchId : ℕ) (st : AppState) :
    AppState × Option String :=
  match st.endPoint with
  | none => (st, some "まず目的地を設定してください")
  | some _ =>
    let st1 := startTracking supported newWatchId { st with navigationMode := true }
    match st.currentLocation with
    | none => (st1, none)
    | some loc =>
      let st2 := startWalkingSession now loc st1
      match st.distanceToDestination with
      | some d =>
          if d ≠ 0 then
            let eta := predictArrivalTime now d st.averageWalkingSpeed
            ({ st2 with estimatedArrivalTime := some eta }, none)
          else (st2, none)
      | none => (st2, none)

/-- Handler `stopNavigation` (App.tsx lines 650-662): navigation mode off, stop
tracking, clear distance and ETA, and when both a session and a fix exist,
end the session at the last known fix. -/
def stopNavigation (now : ℤ) (st : AppState) : AppState :=
  let st1 := stopTracking { st with navigationMode := false }
  let st2 := { st1 with distanceToDestination := none, estimatedArrivalTime := none }
  match st.currentSession, st.currentLocation with
  | some _, some loc => endWalkingSession now loc st2
  | _, _ => st2

/-- The `Idle` configuration of the flat flags: no navigation mode, no
tracking, no stream handle, no distance/ETA, no open session. -/
def IsIdle (st : AppState) : Prop :=
  st.navigationMode = false ∧ st.isTracking = false ∧ st.watchId = none ∧
    st.distanceToDestination = none ∧ st.estimatedArrivalTime = none ∧
    st.currentSession = none

/-- Modelled from the spec: `predictedArrival` as section 4.1 words it —
fails with `InvalidSpeed` when `speedKmh <= 0`, otherwise
`now + (remainingDistanceMeters/1000/speedKmh) hours`. Used only to compare
the source's `predictArrivalTime` against the spec's error contract. -/
def predictedArrivalSpec (now : ℤ) (remainingDistanceMeters speedKmh : ℝ) :
    Except String ℝ :=
  if speedKmh ≤ 0 then .error "InvalidSpeed"
  else .ok ((now : ℝ) + remainingDistanceMeters / 1000 / speedKmh * (60 * 60 * 1000))

/-! ### Helper lemmas -/

theorem atan2_nonneg {y x : ℝ} (hy : 0 ≤ y) : 0 ≤ atan2 y x := by
  have hπ := Real.pi_pos
  unfold atan2
  rcases lt_trichotomy x 0 with hx | hx | hx
  · rw [if_neg (by linarith), if_pos hx, if_pos hy]
    have h := Real.neg_pi_div_two_lt_arctan (y / x)
    linarith
  · subst hx
    rw [if_neg (lt_irrefl 0), if_neg (lt_irrefl 0)]
    rcases eq_or_lt_of_le hy with hy0 | hy0
    · rw [if_neg (by rw [← hy0]; exact lt_irrefl 0),
        if_neg (by rw [← hy0]; exact lt_irrefl 0)]
    · rw [if_pos hy0]
      linarith
  · rw [if_pos hx]
    have h0 : (0:ℝ) ≤ y / x := div_nonneg hy hx.le
    have h := Real.arctan_strictMono.monotone h0
    simpa [Real.arctan_zero] using h

theorem calculateDistance_nonneg (lat1 lon1 lat2 lon2 : ℝ) :
    0 ≤ calculateDistance lat1 lon1 lat2 lon2 := by
  simp only [calculateDistance]
  refine mul_nonneg (by norm_num) (mul_nonneg (by norm_num) ?_)
  exact atan2_nonneg (Real.sqrt_nonneg _)

theorem calculateDistance_self (la lo : ℝ) : calculateDistance la lo la lo = 0 := by
  simp only [calculateDistance, sub_self, zero_mul, zero_div, Real.sin_zero,
    mul_zero, add_zero, zero_add, Real.sqrt_zero, sub_zero, Real.sqrt_one]
  simp [atan2, Real.arctan_zero]

theorem calculateDistance_equator (l1 l2 : ℝ) (h1 : l1 ≤ l2) (h2 : l2 - l1 < 180) :
    calculateDistance 0 l1 0 l2 = 6371000 * ((l2 - l1) * π / 180) := by
  have hπ := Real.pi_pos
  set t := (l2 - l1) * π / 360 with ht
  have hd : 0 ≤ l2 - l1 := by linarith
  have ht0 : 0 ≤ t := by
    rw [ht]; exact div_nonneg (mul_nonneg hd hπ.le) (by norm_num)
  have htlt : t < π / 2 := by
    rw [ht]
    have h3 : (l2 - l1) * π < 180 * π := by
      nlinarith [mul_pos (show (0:ℝ) < 180 - (l2 - l1) by linarith) hπ]
    linarith
  have hsin : 0 ≤ Real.sin t := Real.sin_nonneg_of_nonneg_of_le_pi ht0 (by linarith)
  have hcos : 0 < Real.cos t := Real.cos_pos_of_mem_Ioo ⟨by linarith, htlt⟩
  have e1 : ((0:ℝ) - 0) * π / 180 = 0 := by ring
  have e2 : (0:ℝ) * π / 180 = 0 := by ring
  have e3 : (l2 - l1) * π / 180 / 2 = t := by rw [ht]; ring
  have e4 : 1 - Real.sin t * Real.sin t = Real.cos t * Real.cos t := by
    have h := Real.sin_sq_add_cos_sq t
    rw [sq, sq] at h
    linarith
  have e5 : atan2 (Real.sin t) (Real.cos t) = t := by
    simp only [atan2, if_pos hcos]
    rw [← Real.tan_eq_sin_div_cos]
    exact Real.arctan_tan (by linarith) htlt
  simp only [calculateDistance, e1, e2, e3, zero_div, Real.sin_zero, Real.cos_zero,
    zero_mul, one_mul, zero_add, mul_zero]
  rw [e4, Real.sqrt_mul_self hsin, Real.sqrt_mul_self hcos.le, e5]
  rw [ht]; ring

theorem calculateTotalPathDistance_nonneg :
    ∀ p : List GPSPosition, 0 ≤ calculateTotalPathDistance p
  | [] => by simp [calculateTotalPathDistance]
  | [_] => by simp [calculateTotalPathDistance]
  | a :: b :: rest => by
    have ih := calculateTotalPathDistance_nonneg (b :: rest)
    have hd := calculateDistance_nonneg a.latitude a.longitude b.latitude b.longitude
    simp only [calculateTotalPathDistance]
    linarith

theorem calculateTotalPathDistance_le_append :
    ∀ (p : List GPSPosition) (x : GPSPosition),
      calculateTotalPathDistance p ≤ calculateTotalPathDistance (p ++ [x])
  | [], x => by simp [calculateTotalPathDistance]
  | [a], x => by
    simpa [calculateTotalPathDistance] using
      calculateDistance_nonneg a.latitude a.longitude x.latitude x.longitude
  | a :: b :: rest, x => by
    have ih := calculateTotalPathDistance_le_append (b :: rest) x
    simp only [List.cons_append, List.append_eq, calculateTotalPathDistance] at ih ⊢
    linarith

theorem foldl_add_map {α M : Type*} [AddCommMonoid M] (f : α → M) :
    ∀ (l : List α) (c : M), l.foldl (fun sum s => sum + f s) c = c + (l.map f).sum
  | [], c => by simp
  | s :: rest, c => by
    rw [List.foldl_cons, foldl_add_map f rest (c + f s), List.map_cons, List.sum_cons,
      add_assoc]

theorem foldl_accuracy_pair :
    ∀ (l : List GPSPosition) (u : ℝ × ℕ),
      l.foldl (fun (u : ℝ × ℕ) point => (u.1 + point.accuracy, u.2 + 1)) u =
        (u.1 + (l.map GPSPosition.accuracy).sum, u.2 + l.length)
  | [], u => by simp
  | p :: rest, u => by
    rw [List.foldl_cons, foldl_accuracy_pair rest]
    simp only [List.map_cons, List.sum_cons, List.length_cons, Prod.mk.injEq]
    constructor
    · ring
    · omega

theorem foldl_sessions_accuracy_pair :
    ∀ (l : List WalkingSession) (t : ℝ × ℕ),
      l.foldl
          (fun (t : ℝ × ℕ) s =>
            s.path.foldl (fun (u : ℝ × ℕ) point => (u.1 + point.accuracy, u.2 + 1)) t)
          t =
        (t.1 + (l.map (fun s => (s.path.map GPSPosition.accuracy).sum)).sum,
          t.2 + (l.map (fun s => s.path.length)).sum)
  | [], t => by simp
  | s :: rest, t => by
    rw [List.foldl_cons, foldl_accuracy_pair, foldl_sessions_accuracy_pair rest]
    simp only [List.map_cons, List.sum_cons, Prod.mk.injEq]
    constructor
    · ring
    · omega

theorem getD_mem_of_lt {l : List String} {n : ℕ} (h : n < l.length) (d : String) :
    l.getD n d ∈ l := by
  rw [List.getD_eq_getElem?_getD, List.getElem?_eq_getElem h]
  simp only [Option.getD_some]
  exact List.getElem_mem h

/-! ### Concrete fixtures for witnesses and counterexamples -/

/-- A fix at the origin (equator, prime meridian). -/
def fix0 : GPSPosition := { latitude := 0, longitude := 0, accuracy := 5, timestamp := 0 }

/-- A freshly opened session whose only path point is `fix0`. -/
def sess0 : WalkingSession :=
  { id := "session_0"
    startTime := 0
    endTime := none
    startLocation := fix0
    endLocation := none
    path := [fix0]
    totalDistance := 0
    averageSpeed := 0
    duration := 0 }

/-- A state in the navigating configuration: navigation mode on, stream
open with handle 1, destination at the origin, open session `sess0`. -/
def navState : AppState :=
  { initialState with
      navigationMode := true
      isTracking := true
      watchId := some 1
      gpsEnabled := true
      endPoint := some (0, 0)
      currentLocation := some fix0
      currentSession := some sess0 }

/-- Longitude (degrees) of the point 51 meters east of the origin along
the equator. -/
def lon51 : ℝ := 51 * 180 / (6371000 * π)

/-- State `navState` with the destination moved 51 meters east. -/
def nav51State : AppState := { navState with endPoint := some (0, lon51) }

theorem lon51_nonneg : 0 ≤ lon51 := by
  rw [lon51]
  positivity

theorem lon51_lt_180 : lon51 < 180 := by
  rw [lon51]
  rw [div_lt_iff₀ (by positivity)]
  nlinarith [Real.pi_gt_three]

theorem calculateDistance_to_lon51 : calculateDistance 0 0 0 lon51 = 51 := by
  rw [calculateDistance_equator 0 lon51 lon51_nonneg (by simpa using lon51_lt_180)]
  rw [lon51]
  have hπ := Real.pi_pos
  field_simp
  ring

/-! ### Claims -/

/-- C1 (amended): while `Navigating` (navigation mode on, destination
set), a fix whose computed distance to the destination is 51 leaves the
controller navigating with the stream handle and session history
untouched; a fix at distance ≤ 50 completes the active session with that
fix exactly once (it is appended to the history and the active session is
cleared, and once the active session is `none` no later fix ever grows the
history or re-opens a session) and emits the arrival signal — but the fix
stream is NOT stopped and the controller does NOT transition to `Idle`:
navigation mode, `isTracking` and `watchId` keep their values. -/
theorem claim1_arrival (now : ℤ) (pos : GPSPosition) (st : AppState) (ep : ℝ × ℝ)
    (hep : st.endPoint = some ep) (hnav : st.navigationMode = true) :
    (calculateDistance pos.latitude pos.longitude ep.1 ep.2 = 51 →
      (handleWatchPosition now pos st).1.navigationMode = true ∧
        (handleWatchPosition now pos st).1.watchId = st.watchId ∧
        (handleWatchPosition now pos st).1.walkingSessions = st.walkingSessions) ∧
    (calculateDistance pos.latitude pos.longitude ep.1 ep.2 ≤ 50 →
      ∀ cs, st.currentSession = some cs →
        (handleWatchPosition now pos st).1.walkingSessions
            = st.walkingSessions ++ [completeSessionWith now cs pos] ∧
          (handleWatchPosition now pos st).1.currentSession = none ∧
          (handleWatchPosition now pos st).2 = true ∧
          (handleWatchPosition now pos st).1.navigationMode = true ∧
          (handleWatchPosition now pos st).1.isTracking = st.isTracking ∧
          (handleWatchPosition now pos st).1.watchId = st.watchId) ∧
    (∀ (now2 : ℤ) (pos2 : GPSPosition) (st2 : AppState),
      st2.currentSession = none →
        (handleWatchPosition now2 pos2 st2).1.walkingSessions = st2.walkingSessions ∧
          (handleWatchPosition now2 pos2 st2).1.currentSession = none) := by
  refine ⟨fun hd => ?_, fun hle cs hcs => ?_, fun now2 pos2 st2 h2 => ?_⟩
  · simp only [handleWatchPosition, hep, hnav]
    rw [hd, if_neg (by norm_num : ¬(51:ℝ) ≤ 50)]
    simp
  · simp only [handleWatchPosition, hep, hnav, hcs]
    rw [if_pos hle]
    simp
  · rcases h : st2.endPoint with _ | ep2
    · simp [handleWatchPosition, h, h2]
    · cases hb : st2.navigationMode
      · simp [handleWatchPosition, h, hb, h2]
      · simp only [handleWatchPosition, h, hb, h2]
        split_ifs <;> simp

/-- C1 witness: at distance exactly 51 (destination 51 m east on the
equator) the controller stays navigating. -/
theorem claim1_arrival_witness :
    (handleWatchPosition 0 fix0 nav51State).1.navigationMode = true := by
  have h := claim1_arrival 0 fix0 nav51State (0, lon51) rfl rfl
  have hd : calculateDistance fix0.latitude fix0.longitude
      ((0:ℝ), lon51).1 ((0:ℝ), lon51).2 = 51 := by
    simpa [fix0] using calculateDistance_to_lon51
  exact (h.1 hd).1

/-- C1 counterexample: a fix at the destination itself (distance 0 ≤ 50)
while navigating completes the session, but the resulting state still has
navigation mode on, tracking on and the stream handle in place — the
claimed transition to `Idle` with stream teardown does not happen. -/
theorem claim1_counterexample :
    calculateDistance fix0.latitude fix0.longitude (0:ℝ) (0:ℝ) ≤ 50 ∧
      navState.navigationMode = true ∧
      (handleWatchPosition 0 fix0 navState).1.navigationMode = true ∧
      (handleWatchPosition 0 fix0 navState).1.isTracking = true ∧
      (handleWatchPosition 0 fix0 navState).1.watchId = some 1 := by
  have hd : calculateDistance fix0.latitude fix0.longitude (0:ℝ) (0:ℝ) = 0 := by
    simpa [fix0] using calculateDistance_self 0 0
  refine ⟨by rw [hd]; norm_num, rfl, ?_, ?_, ?_⟩ <;>
    · simp only [handleWatchPosition, navState, initialState]
      simp only [hd]
      rw [if_pos (by norm_num : (0:ℝ) ≤ 50)]

/-- C2 (amended): the arrival signal is emitted on every fix delivered
within 50 meters of the destination while navigation mode is on — it is
per-fix, not once per completed navigation; in particular it fires again
when the active session has already been completed (`currentSession =
none`). -/
theorem claim2_arrival_signal (now : ℤ) (pos : GPSPosition) (st : AppState)
    (ep : ℝ × ℝ) (hep : st.endPoint = some ep) (hnav : st.navigationMode = true)
    (hle : calculateDistance pos.latitude pos.longitude ep.1 ep.2 ≤ 50) :
    (handleWatchPosition now pos st).2 = true := by
  simp only [handleWatchPosition, hep, hnav]
  rw [if_pos hle]
  cases hcs : st.currentSession <;> simp [hcs]

/-- C2 witness: a fix at the destination (distance 0) with no open session
(the navigation already completed) still emits the signal. -/
theorem claim2_arrival_signal_witness :
    (handleWatchPosition 1 fix0 { navState with currentSession := none }).2 = true := by
  refine claim2_arrival_signal 1 fix0 _ ((0:ℝ), (0:ℝ)) rfl rfl ?_
  have hd : calculateDistance fix0.latitude fix0.longitude (0:ℝ) (0:ℝ) = 0 := by
    simpa [fix0] using calculateDistance_self 0 0
  simp only [hd]
  norm_num

/-- C2 counterexample: two consecutive fixes at the destination while
navigating — the signal fires on the first (which completes the
navigation) and fires AGAIN on the second, so it is not exactly-once per
completed navigation. -/
theorem claim2_counterexample :
    (handleWatchPosition 0 fix0 navState).2 = true ∧
      (handleWatchPosition 1 fix0 (handleWatchPosition 0 fix0 navState).1).2 = true := by
  have hd : calculateDistance fix0.latitude fix0.longitude (0:ℝ) (0:ℝ) = 0 := by
    simpa [fix0] using calculateDistance_self 0 0
  have h50 : (0:ℝ) ≤ 50 := by norm_num
  constructor
  · simp only [handleWatchPosition, navState, initialState]
    simp only [hd]
    rw [if_pos h50]
  · have hd2 : calculateDistance fix0.latitude fix0.longitude
        ((0:ℝ), (0:ℝ)).1 ((0:ℝ), (0:ℝ)).2 = 0 := by
      simpa [fix0] using calculateDistance_self 0 0
    set st1 := (handleWatchPosition 0 fix0 navState).1 with hst1def
    have hep : st1.endPoint = some ((0:ℝ), (0:ℝ)) := by
      rw [hst1def]
      simp only [handleWatchPosition, navState, initialState]
      simp only [hd]
      rw [if_pos h50]
    have hnav : st1.navigationMode = true := by
      rw [hst1def]
      simp only [handleWatchPosition, navState, initialState]
      simp only [hd]
      rw [if_pos h50]
    clear_value st1
    simp only [handleWatchPosition, hep, hnav]
    simp only [hd2, hd]
    rw [if_pos h50]
    cases hcs : st1.currentSession <;> simp [hcs]

/-- C3 (amended): every fix-delivery error is surfaced to the collaborator
through `gpsError` and nothing else changes: the stream handle, tracking
flag, navigation mode, session and history all keep their values — and
this holds uniformly for `PermissionDenied` too; there is no stream
teardown and no transition to `Idle` on `PermissionDenied`. -/
theorem claim3_watch_error (e : GeoError) (st : AppState) :
    (handleWatchError e st).gpsError = some "位置追跡中にエラーが発生しました" ∧
      (handleWatchError e st).watchId = st.watchId ∧
      (handleWatchError e st).isTracking = st.isTracking ∧
      (handleWatchError e st).navigationMode = st.navigationMode ∧
      (handleWatchError e st).currentSession = st.currentSession ∧
      (handleWatchError e st).walkingSessions = st.walkingSessions ∧
      (handleWatchError e st).endPoint = st.endPoint := by
  simp [handleWatchError]

/-- C3 counterexample: a `PermissionDenied` delivery error while
navigating leaves the stream handle in place and navigation mode on — the
claimed teardown and `Idle` transition do not happen. -/
theorem claim3_counterexample :
    (handleWatchError GeoError.permissionDenied navState).watchId = some 1 ∧
      (handleWatchError GeoError.permissionDenied navState).navigationMode = true ∧
      (handleWatchError GeoError.permissionDenied navState).isTracking = true := by
  simp [handleWatchError, navState, initialState]

/-- State with a destination set but no current fix yet. -/
def stNoFix : AppState := { initialState with endPoint := some (0, 0) }

/-- C4 (amended): `startNavigation` with a null destination surfaces the
alert and leaves the state unchanged; with a destination and an existing
current fix it opens a fresh session from that fix; with a destination but
no current fix it opens NO session — and none is opened lazily later,
because fix handling never creates a session. -/
theorem claim4_startNavigation (now : ℤ) (supported : Bool) (wid : ℕ) (st : AppState) :
    (st.endPoint = none →
      startNavigation now supported wid st = (st, some "まず目的地を設定してください")) ∧
    (∀ ep loc, st.endPoint = some ep → st.currentLocation = some loc →
      (startNavigation now supported wid st).1.currentSession
          = some (freshSession now loc) ∧
        (startNavigation now supported wid st).1.navigationMode = true) ∧
    (∀ ep, st.endPoint = some ep → st.currentLocation = none →
      st.currentSession = none →
      (startNavigation now supported wid st).1.currentSession = none) ∧
    (∀ (now2 : ℤ) (pos : GPSPosition) (st2 : AppState),
      st2.currentSession = none →
        (handleWatchPosition now2 pos st2).1.currentSession = none) := by
  refine ⟨fun h => ?_, fun ep loc hep hloc => ?_, fun ep hep hloc hcs => ?_,
    fun now2 pos st2 h2 => ?_⟩
  · simp [startNavigation, h]
  · simp only [startNavigation, hep, hloc]
    rcases hdd : st.distanceToDestination with _ | d
    · cases supported <;>
        simp [startWalkingSession, startTracking]
    · cases supported <;> rcases eq_or_ne d 0 with h0 | h0 <;>
        simp [h0, startWalkingSession, startTracking]
  · simp only [startNavigation, hep, hloc]
    cases supported <;> simp [startTracking, hcs]
  · rcases h : st2.endPoint with _ | ep2
    · simp [handleWatchPosition, h, h2]
    · cases hb : st2.navigationMode
      · simp [handleWatchPosition, h, hb, h2]
      · simp only [handleWatchPosition, h, hb, h2]
        split_ifs <;> simp

/-- C4 witness: with no destination, `startNavigation` returns the alert
and the unchanged initial state. -/
theorem claim4_startNavigation_witness :
    startNavigation 0 true 1 initialState
      = (initialState, some "まず目的地を設定してください") :=
  (claim4_startNavigation 0 true 1 initialState).1 rfl

/-- C4 counterexample: destination set, no current fix: `startNavigation`
opens no session, and the first fix received while navigating still leaves
`currentSession = none` — the claimed lazy session opening never happens. -/
theorem claim4_counterexample :
    (startNavigation 0 true 1 stNoFix).1.currentSession = none ∧
      (handleWatchPosition 1 fix0 (startNavigation 0 true 1 stNoFix).1).1.currentSession
        = none := by
  have hd : calculateDistance fix0.latitude fix0.longitude (0:ℝ) (0:ℝ) = 0 := by
    simpa [fix0] using calculateDistance_self 0 0
  have h1 : (startNavigation 0 true 1 stNoFix).1.currentSession = none := by
    simp [startNavigation, stNoFix, initialState, startTracking]
  refine ⟨h1, ?_⟩
  have hep : (startNavigation 0 true 1 stNoFix).1.endPoint = some ((0:ℝ), (0:ℝ)) := by
    simp [startNavigation, stNoFix, initialState, startTracking]
  have hnav : (startNavigation 0 true 1 stNoFix).1.navigationMode = true := by
    simp [startNavigation, stNoFix, initialState, startTracking]
  simp only [handleWatchPosition, hep, hnav, h1]
  simp only [hd]
  rw [if_pos (by norm_num : (0:ℝ) ≤ 50)]

/-- Equatorial fixes 0.001° of longitude apart (spec section 8's 4-fix
example); `fix0` serves as the first one at (0, 0). -/
def eqP1 : GPSPosition := { latitude := 0, longitude := 0.001, accuracy := 5, timestamp := 1000 }

def eqP2 : GPSPosition := { latitude := 0, longitude := 0.002, accuracy := 5, timestamp := 2000 }

def eqP3 : GPSPosition := { latitude := 0, longitude := 0.003, accuracy := 5, timestamp := 3000 }

/-- The 4-fix example session after 0, 1, 2 and 3 appends. -/
def eqS0 : WalkingSession := freshSession 0 fix0

def eqS1 : WalkingSession := appendFixToSession 1000 eqS0 eqP1

def eqS2 : WalkingSession := appendFixToSession 2000 eqS1 eqP2

def eqS3 : WalkingSession := appendFixToSession 3000 eqS2 eqP3

theorem eqSeg_eq (l1 l2 : ℝ) (h1 : l1 ≤ l2) (h2 : l2 - l1 < 180) :
    calculateDistance 0 l1 0 l2 = 6371000 * ((l2 - l1) * π / 180) :=
  calculateDistance_equator l1 l2 h1 h2

/-- C5: appending a fix to an open session recomputes `totalDistance` as
the consecutive great-circle sum over the grown path; that sum is never
negative; under the invariant that the stored `totalDistance` is the path
sum, it is monotonically non-decreasing across appends; and on the spec's
4-fix equatorial example it is strictly increasing after each append and
lands within 1% of 333 meters after 3 appends. -/
theorem claim5_totalDistance (now : ℤ) (s : WalkingSession) (pos : GPSPosition) :
    ((appendFixToSession now s pos).totalDistance
        = calculateTotalPathDistance (appendFixToSession now s pos).path) ∧
      0 ≤ (appendFixToSession now s pos).totalDistance ∧
      (s.totalDistance = calculateTotalPathDistance s.path →
        s.totalDistance ≤ (appendFixToSession now s pos).totalDistance) ∧
      (eqS0.totalDistance < eqS1.totalDistance ∧
        eqS1.totalDistance < eqS2.totalDistance ∧
        eqS2.totalDistance < eqS3.totalDistance ∧
        |eqS3.totalDistance - 333| ≤ 333 / 100) := by
  have hπ := Real.pi_pos
  have h01 : calculateDistance 0 0 0 0.001 = 6371000 * ((0.001 - 0) * π / 180) :=
    eqSeg_eq 0 0.001 (by norm_num) (by norm_num)
  have h12 : calculateDistance 0 0.001 0 0.002 = 6371000 * ((0.002 - 0.001) * π / 180) :=
    eqSeg_eq 0.001 0.002 (by norm_num) (by norm_num)
  have h23 : calculateDistance 0 0.002 0 0.003 = 6371000 * ((0.003 - 0.002) * π / 180) :=
    eqSeg_eq 0.002 0.003 (by norm_num) (by norm_num)
  have e0 : eqS0.totalDistance = 0 := rfl
  have e0p : eqS0.path = [fix0] := rfl
  have e1 : eqS1.totalDistance = calculateDistance 0 0 0 0.001 := by
    simp [eqS1, appendFixToSession, e0p, calculateTotalPathDistance, fix0, eqP1]
  have e1p : eqS1.path = [fix0, eqP1] := by
    simp [eqS1, appendFixToSession, e0p]
  have e2 : eqS2.totalDistance
      = calculateDistance 0 0 0 0.001 + calculateDistance 0 0.001 0 0.002 := by
    simp [eqS2, appendFixToSession, e1p, calculateTotalPathDistance, fix0, eqP1, eqP2]
  have e2p : eqS2.path = [fix0, eqP1, eqP2] := by
    simp [eqS2, appendFixToSession, e1p]
  have e3 : eqS3.totalDistance
      = calculateDistance 0 0 0 0.001 + (calculateDistance 0 0.001 0 0.002
          + calculateDistance 0 0.002 0 0.003) := by
    simp [eqS3, appendFixToSession, e2p, calculateTotalPathDistance, fix0, eqP1, eqP2, eqP3]
  refine ⟨rfl, ?_, fun hinv => ?_, ?_, ?_, ?_, ?_⟩
  · exact calculateTotalPathDistance_nonneg _
  · rw [hinv]
    exact calculateTotalPathDistance_le_append s.path pos
  · rw [e0, e1, h01]
    nlinarith
  · rw [e1, e2, h12]
    nlinarith
  · rw [e2, e3, h23]
    nlinarith
  · rw [e3, h01, h12, h23, abs_le]
    constructor <;> nlinarith [Real.pi_gt_d6, Real.pi_lt_d6]

/-- C5 witness: on the concrete example session, appending the second fix
does not decrease the stored total distance. -/
theorem claim5_totalDistance_witness :
    eqS0.totalDistance ≤ (appendFixToSession 1000 eqS0 eqP1).totalDistance := by
  refine (claim5_totalDistance 1000 eqS0 eqP1).2.2.1 ?_
  simp [eqS0, freshSession, calculateTotalPathDistance]

/-- C6: `calculateWalkingStats` of the empty list is the all-zero record
(no fault); on a non-empty list it returns the session count, the sums of
per-session distance and duration, the unweighted mean of per-session
average speeds, and — whenever at least one path point exists — the mean
of `accuracy` over every fix of every session's path. -/
theorem claim6_aggregate (sessions : List WalkingSession) :
    (calculateWalkingStats []
        = { totalSessions := 0, totalDistance := 0, totalTime := 0
            averageSpeed := 0, averageAccuracy := 0 }) ∧
      (sessions ≠ [] →
        (calculateWalkingStats sessions).totalSessions = sessions.length ∧
          (calculateWalkingStats sessions).totalDistance
            = (sessions.map WalkingSession.totalDistance).sum ∧
          (calculateWalkingStats sessions).totalTime
            = (sessions.map WalkingSession.duration).sum ∧
          (calculateWalkingStats sessions).averageSpeed
            = (sessions.map WalkingSession.averageSpeed).sum / (sessions.length : ℝ) ∧
          (0 < (sessions.map (fun s => s.path.length)).sum →
            (calculateWalkingStats sessions).averageAccuracy
              = (sessions.map (fun s => (s.path.map GPSPosition.accuracy).sum)).sum
                  / (((sessions.map (fun s => s.path.length)).sum : ℕ) : ℝ))) := by
  constructor
  · rfl
  · intro hne
    have hlen : sessions.length ≠ 0 := by
      simpa [List.length_eq_zero] using hne
    simp only [calculateWalkingStats, if_neg hlen, foldl_add_map,
      foldl_sessions_accuracy_pair, zero_add]
    refine ⟨trivial, trivial, trivial, trivial, fun hpts => ?_⟩
    rw [if_pos hpts]

/-- C6 witness: on the one-session list `[sess0]` the aggregate reports
one session, and the average accuracy is the accuracy of its single fix. -/
theorem claim6_aggregate_witness :
    (calculateWalkingStats [sess0]).totalSessions = 1 ∧
      (calculateWalkingStats [sess0]).averageAccuracy = 5 := by
  have h := (claim6_aggregate [sess0]).2 (by simp)
  refine ⟨by simpa using h.1, ?_⟩
  have hacc := h.2.2.2.2 (by simp [sess0, fix0])
  rw [hacc]
  simp [sess0, fix0]

/-- C7 (amended): the source's `predictArrivalTime` never fails — it has
no `InvalidSpeed` guard; on every positive speed it agrees with the spec's
`predictedArrival` formula (`now` plus `remaining/1000/speed` hours), and
its callers, not the function, guard against non-positive speeds. -/
theorem claim7_predictArrival (now : ℤ) (d s : ℝ) (hs : 0 < s) :
    predictedArrivalSpec now d s = Except.ok (predictArrivalTime now d s) := by
  rw [predictedArrivalSpec, if_neg (not_le.mpr hs), predictArrivalTime]

/-- C7 witness: at 1 km/h the spec formula and the source function agree. -/
theorem claim7_predictArrival_witness :
    predictedArrivalSpec 0 1000 1 = Except.ok (predictArrivalTime 0 1000 1) :=
  claim7_predictArrival 0 1000 1 (by norm_num)

/-- C7 counterexample: at speed −9 km/h (≤ 0) the source function does not
fail with `InvalidSpeed` — it returns the definite timestamp −3600000
(one hour in the past), while the spec's `predictedArrival` errors. -/
theorem claim7_counterexample :
    predictArrivalTime 0 9000 (-9) = -3600000 ∧
      predictedArrivalSpec 0 9000 (-9) = Except.error "InvalidSpeed" := by
  constructor
  · rw [predictArrivalTime]
    norm_num
  · rw [predictedArrivalSpec, if_pos (by norm_num : (-9:ℝ) ≤ 0)]

theorem jsRound_eq {x : ℝ} {z : ℤ} (h1 : (z : ℝ) ≤ x + 1 / 2)
    (h2 : x + 1 / 2 < z + 1) : jsRound x = z := by
  rw [jsRound, Int.floor_eq_iff]
  exact ⟨h1, h2⟩

/-- C8 (amended): for every bearing in `[0, 360)`, `bearingToDirection`
returns one of the 8 ordinal labels, chosen by rounding `bearing/45` to
the nearest integer mod 8; on the spec's sample points, 0 ↦ N (北),
46 ↦ NE (北東) and 359 ↦ N (北) as claimed, but 44 ↦ NE (北東), not N:
`round(44/45) = 1`. -/
theorem claim8_compass (b : ℝ) (h0 : 0 ≤ b) (h1 : b < 360) :
    bearingToDirection b ∈ directions ∧
      bearingToDirection 0 = "北" ∧
      bearingToDirection 44 = "北東" ∧
      bearingToDirection 46 = "北東" ∧
      bearingToDirection 359 = "北" := by
  have hmem : bearingToDirection b ∈ directions := by
    have hr : 0 ≤ jsRound (b / 45) := by
      rw [jsRound]
      refine Int.floor_nonneg.mpr ?_
      have : 0 ≤ b / 45 := by positivity
      linarith
    have hmod : (jsRound (b / 45)).tmod 8 = (jsRound (b / 45)) % 8 :=
      Int.tmod_eq_emod hr (by norm_num)
    have hlt : ((jsRound (b / 45)).tmod 8).toNat < directions.length := by
      rw [hmod]
      have h8 : (jsRound (b / 45)) % 8 < 8 := Int.emod_lt_of_pos _ (by norm_num)
      have h8' : 0 ≤ (jsRound (b / 45)) % 8 := Int.emod_nonneg _ (by norm_num)
      simp only [directions, List.length_cons, List.length_nil]
      omega
    exact getD_mem_of_lt hlt ""
  have c0 : bearingToDirection 0 = "北" := by
    have h : jsRound ((0:ℝ) / 45) = 0 := jsRound_eq (by norm_num) (by norm_num)
    simp only [bearingToDirection]
    rw [h]
    decide
  have c44 : bearingToDirection 44 = "北東" := by
    have h : jsRound ((44:ℝ) / 45) = 1 := jsRound_eq (by norm_num) (by norm_num)
    simp only [bearingToDirection]
    rw [h]
    decide
  have c46 : bearingToDirection 46 = "北東" := by
    have h : jsRound ((46:ℝ) / 45) = 1 := jsRound_eq (by norm_num) (by norm_num)
    simp only [bearingToDirection]
    rw [h]
    decide
  have c359 : bearingToDirection 359 = "北" := by
    have h : jsRound ((359:ℝ) / 45) = 8 := jsRound_eq (by norm_num) (by norm_num)
    simp only [bearingToDirection]
    rw [h]
    decide
  exact ⟨hmem, c0, c44, c46, c359⟩

/-- C8 witness: bearing 100 yields one of the 8 labels. -/
theorem claim8_compass_witness : bearingToDirection 100 ∈ directions :=
  (claim8_compass 100 (by norm_num) (by norm_num)).1

/-- C8 counterexample: at bearing 44 the source returns 北東 (NE), not 北
(N) as the claim's sample asserts: `Math.round(44/45) = 1`. -/
theorem claim8_counterexample :
    bearingToDirection 44 = "北東" ∧ "北東" ≠ "北" := by
  constructor
  · have h : jsRound ((44:ℝ) / 45) = 1 := jsRound_eq (by norm_num) (by norm_num)
    simp only [bearingToDirection]
    rw [h]
    decide
  · decide

/-- C9: `stopTracking` (the stream teardown) is idempotent as a state
transformation — a second call is a no-op — and `stopNavigation` on a
state already in the `Idle` configuration produces no error and returns
the state unchanged. -/
theorem claim9_idempotence :
    (∀ st : AppState, stopTracking (stopTracking st) = stopTracking st) ∧
      (∀ (now : ℤ) (st : AppState), IsIdle st → stopNavigation now st = st) := by
  constructor
  · intro st
    rfl
  · rintro now ⟨cl, ge, gerr, it, wi, nm, dd, lh, cs, ws, wst, eta, aws, ep⟩
      ⟨h1, h2, h3, h4, h5, h6⟩
    simp only at h1 h2 h3 h4 h5 h6
    subst h1 h2 h3 h4 h5 h6
    rfl

/-- C9 witness: `stopNavigation` on the idle initial state returns it
unchanged, and a duplicated `stopTracking` equals a single one. -/
theorem claim9_idempotence_witness :
    stopNavigation 0 initialState = initialState ∧
      stopTracking (stopTracking navState) = stopTracking navState := by
  constructor
  · exact claim9_idempotence.2 0 initialState ⟨rfl, rfl, rfl, rfl, rfl, rfl⟩
  · exact claim9_idempotence.1 navState

/-- Navigating state whose open session `sess0` started at time 0 at the
origin, with the current fix one equatorial step east. -/
def speedState : AppState :=
  { initialState with
      navigationMode := true
      isTracking := true
      watchId := some 1
      gpsEnabled := true
      endPoint := some (0, 0)
      currentLocation := some eqP1
      currentSession := some sess0 }

/-- C10: the ETA fallback speed starts at 4.5 km/h; `startNavigation`
seeds the initial ETA from it (before the fresh session has any measured
speed); and a session completed via `stopNavigation` whose resulting
lifetime average speed is positive replaces the fallback with that
lifetime average for subsequent navigations. -/
theorem claim10_fallback_speed (now : ℤ) (st : AppState) (cs : WalkingSession)
    (loc : GPSPosition) (hcs : st.currentSession = some cs)
    (hloc : st.currentLocation = some loc) :
    initialState.averageWalkingSpeed = 4.5 ∧
      (0 < (calculateWalkingStats
            (st.walkingSessions ++ [completeSessionWith now cs loc])).averageSpeed →
        (stopNavigation now st).averageWalkingSpeed
          = (calculateWalkingStats
              (st.walkingSessions ++ [completeSessionWith now cs loc])).averageSpeed) ∧
      (∀ (now2 : ℤ) (sup : Bool) (wid : ℕ) (st2 : AppState) (ep : ℝ × ℝ)
          (l2 : GPSPosition) (d : ℝ),
        st2.endPoint = some ep → st2.currentLocation = some l2 →
          st2.distanceToDestination = some d → d ≠ 0 →
          (startNavigation now2 sup wid st2).1.estimatedArrivalTime
            = some (predictArrivalTime now2 d st2.averageWalkingSpeed)) := by
  refine ⟨rfl, fun hpos => ?_, fun now2 sup wid st2 ep l2 d hep hloc2 hdd hd0 => ?_⟩
  · simp only [stopNavigation, stopTracking, hcs, hloc, endWalkingSession]
    rw [if_pos hpos]
  · simp only [startNavigation, hep, hloc2, hdd]
    rw [if_pos hd0]

/-- C10 witness: completing a one-hour, one-equatorial-step session via
`stopNavigation` replaces the 4.5 km/h fallback with the (positive)
lifetime average speed. -/
theorem claim10_fallback_speed_witness :
    (stopNavigation 3600000 speedState).averageWalkingSpeed
      = (calculateWalkingStats
          (speedState.walkingSessions
            ++ [completeSessionWith 3600000 sess0 eqP1])).averageSpeed := by
  apply (claim10_fallback_speed 3600000 speedState sess0 eqP1 rfl rfl).2.1
  have hπ := Real.pi_pos
  have hseg : calculateDistance 0 0 0 0.001 = 6371000 * ((0.001 - 0) * π / 180) :=
    calculateDistance_equator 0 0.001 (by norm_num) (by norm_num)
  have hpath : (completeSessionWith 3600000 sess0 eqP1).averageSpeed
      = calculateSpeed (calculateDistance 0 0 0 0.001) 3600000 := by
    simp [completeSessionWith, sess0, calculateTotalPathDistance, fix0, eqP1]
  have hstats : (calculateWalkingStats
      (speedState.walkingSessions ++ [completeSessionWith 3600000 sess0 eqP1])).averageSpeed
      = (completeSessionWith 3600000 sess0 eqP1).averageSpeed := by
    simp [speedState, initialState, calculateWalkingStats]
  rw [hstats, hpath, calculateSpeed, if_neg (by norm_num : ¬(3600000:ℤ) = 0), hseg]
  norm_num
  positivity

end

end ShadeRouteApp
